import Mathlib

/-!
Verification of the SnowTransfer endpoint-wrapper layer and of the request
scheduler described by its design specification.

The endpoint-wrapper classes (`GuildMethods`, `GuildAssetsMethods`,
`InviteMethods`, `BotMethods`, `GuildTemplateMethods`, `AuditLogMethods`)
are embedded from the TypeScript source: each public method becomes a pure
function computing the (url, verb, dataKind, payload) tuple it hands to
`requestHandler.request`.  A method that can throw synchronously is embedded
as a function into `Except`.

Caller-supplied body objects that a wrapper forwards untouched are modelled
by a type parameter `δ`; the wrapper never inspects them, which the
polymorphism makes manifest.  Query-string option objects whose keys the
wrappers enumerate with `Object.keys` are modelled as ordered association
lists `List (String × String)` (JavaScript preserves insertion order for
string keys, and every value is interpolated into the URL as a string).

The scheduler core (`RequestHandler`, ratelimit buckets) is not part of the
sources at hand; where a claim concerns it, the relevant component is
modelled from the specification text and marked as such in its doc comment.
-/

namespace SnowTransfer

/-- HTTP verbs the wrapper layer passes to the dispatcher. -/
inductive Verb
| get
| post
| put
| patch
| delete
deriving DecidableEq, Repr

/-- The `dataKind` argument of `requestHandler.request`: how a payload body is
to be encoded.  The wrappers in the sources use only `json` and `multipart`;
the spec also lists `none` for body-less kinds. -/
inductive DataKind
| json
| multipart
| none
deriving DecidableEq, Repr

/-- A payload handed to the dispatcher.
`data` is a caller-supplied body object forwarded untouched;
`reason` is the object literal `{ reason }` built by the delete-style wrappers;
`search` is the `{ query, limit? }` options object of `searchGuildMembers`. -/
inductive Payload (δ : Type)
| data (d : δ)
| reason (r : String)
| search (query : String) (limit : Option Int)
deriving DecidableEq, Repr

/-- The (url, verb, dataKind, payload) tuple a wrapper hands to
`requestHandler.request`. -/
structure Request (δ : Type) where
  url : String
  verb : Verb
  dataKind : DataKind
  payload : Option (Payload δ)
deriving DecidableEq, Repr

/-- Modelled from the spec: `src/Constants.ts` is not among the sources; the
spec only says the search-members page-size limit must lie in an allowed
range, so the two bounds are kept as parameters. -/
structure Constants where
  SEARCH_MEMBERS_MIN_RESULTS : Int
  SEARCH_MEMBERS_MAX_RESULTS : Int
deriving DecidableEq, Repr

/-- Modelled from the spec: a representative choice of the two bounds, used
only to instantiate parametric theorems at concrete inputs. -/
def defaultConstants : Constants :=
  { SEARCH_MEMBERS_MIN_RESULTS := 1, SEARCH_MEMBERS_MAX_RESULTS := 1000 }

namespace Endpoints

/-- Modelled from the spec: `src/Endpoints.ts` is not among the sources; per
the spec routes are string templates with interpolated ids, reconstructed
here from the wrapper call sites.  No claim depends on the exact spelling of
a route prefix, only on which endpoint function is applied to which ids. -/
def GUILDS : String := "/guilds"

def GUILD (guildId : String) : String := GUILDS ++ "/" ++ guildId

def GUILD_PREVIEW (guildId : String) : String := GUILD guildId ++ "/preview"

def GUILD_CHANNELS (guildId : String) : String := GUILD guildId ++ "/channels"

def GUILD_THREADS_ACTIVE (guildId : String) : String := GUILD guildId ++ "/threads/active"

def GUILD_MEMBERS (guildId : String) : String := GUILD guildId ++ "/members"

def GUILD_MEMBER (guildId memberId : String) : String := GUILD_MEMBERS guildId ++ "/" ++ memberId

def GUILD_MEMBERS_SEARCH (guildId : String) : String := GUILD_MEMBERS guildId ++ "/search"

def GUILD_MEMBER_ROLE (guildId memberId roleId : String) : String :=
  GUILD_MEMBER guildId memberId ++ "/roles/" ++ roleId

def GUILD_BANS (guildId : String) : String := GUILD guildId ++ "/bans"

def GUILD_BAN (guildId memberId : String) : String := GUILD_BANS guildId ++ "/" ++ memberId

def GUILD_ROLES (guildId : String) : String := GUILD guildId ++ "/roles"

def GUILD_ROLE (guildId roleId : String) : String := GUILD_ROLES guildId ++ "/" ++ roleId

def GUILD_PRUNE (guildId : String) : String := GUILD guildId ++ "/prune"

def GUILD_VOICE_REGIONS (guildId : String) : String := GUILD guildId ++ "/regions"

def GUILD_INVITES (guildId : String) : String := GUILD guildId ++ "/invites"

def GUILD_INTEGRATIONS (guildId : String) : String := GUILD guildId ++ "/integrations"

def GUILD_INTEGRATION (guildId integrationId : String) : String :=
  GUILD_INTEGRATIONS guildId ++ "/" ++ integrationId

def GUILD_WIDGET_SETTINGS (guildId : String) : String := GUILD guildId ++ "/widget"

def GUILD_WIDGET (guildId : String) : String := GUILD guildId ++ "/widget.json"

def GUILD_VANITY (guildId : String) : String := GUILD guildId ++ "/vanity-url"

def GUILD_WELCOME_SCREEN (guildId : String) : String := GUILD guildId ++ "/welcome-screen"

def GUILD_VOICE_STATE_USER (guildId userId : String) : String :=
  GUILD guildId ++ "/voice-states/" ++ userId

def GUILD_EMOJIS (guildId : String) : String := GUILD guildId ++ "/emojis"

def GUILD_EMOJI (guildId emojiId : String) : String := GUILD_EMOJIS guildId ++ "/" ++ emojiId

def STICKER (stickerId : String) : String := "/stickers/" ++ stickerId

def GUILD_STICKERS (guildId : String) : String := GUILD guildId ++ "/stickers"

def GUILD_STICKER (guildId stickerId : String) : String := GUILD_STICKERS guildId ++ "/" ++ stickerId

def INVITES (inviteId : String) : String := "/invites/" ++ inviteId

def GATEWAY : String := "/gateway"

def GATEWAY_BOT : String := GATEWAY ++ "/bot"

def OAUTH2_APPLICATION (appId : String) : String := "/oauth2/applications/" ++ appId

def TEMPLATE (code : String) : String := GUILDS ++ "/templates/" ++ code

def GUILD_TEMPLATES (guildId : String) : String := GUILD guildId ++ "/templates"

def GUILD_TEMPLATE (guildId code : String) : String := GUILD_TEMPLATES guildId ++ "/" ++ code

def GUILD_AUDIT_LOGS (guildId : String) : String := GUILD guildId ++ "/audit-logs"

end Endpoints

/-- The payload built by the expression `reason ? { reason } : undefined`:
JavaScript treats both `undefined` and the empty string as falsy, so the
object `{ reason }` is sent iff `reason` is a defined, non-empty string. -/
def reasonPayload (δ : Type) (reason : Option String) : Option (Payload δ) :=
  match reason with
  | Option.some r => if r = "" then Option.none else Option.some (Payload.reason r)
  | Option.none => Option.none

/-- The fragments produced by
`Object.keys(options).map((v, index) => (index === 0 ? "?" : "&") + v + "=" + options[v])`,
with `i` the index of the first remaining entry. -/
def queryFragmentsFrom : Nat → List (String × String) → List String
| _, [] => []
| i, (k, v) :: rest =>
    ((if i = 0 then "?" else "&") ++ k ++ "=" ++ v) :: queryFragmentsFrom (i + 1) rest

/-- The full fragment array of a query-options object. -/
def queryFragments (opts : List (String × String)) : List String :=
  queryFragmentsFrom 0 opts

/-- JavaScript `Array.prototype.join(sep)`: elements concatenated with `sep`
between consecutive elements.  Interpolating an array into a template
literal invokes `join(",")`. -/
def joinWith (sep : String) : List String → String
| [] => ""
| [a] => a
| a :: b :: rest => a ++ sep ++ joinWith sep (b :: rest)

/-- `options.limit !== undefined && (options.limit < MIN || options.limit > MAX)`:
the guard of the `RangeError` thrown by `searchGuildMembers`. -/
def limitOutOfRange (C : Constants) (limit : Option Int) : Bool :=
  match limit with
  | Option.some l =>
      decide (l < C.SEARCH_MEMBERS_MIN_RESULTS) || decide (C.SEARCH_MEMBERS_MAX_RESULTS < l)
  | Option.none => false

/-- The `{ query, limit? }` options object of `searchGuildMembers`. -/
structure SearchOptions where
  query : String
  limit : Option Int
deriving DecidableEq, Repr

namespace GuildMethods

variable {δ : Type}

def createGuild (data : δ) : Request δ :=
  ⟨Endpoints.GUILDS, Verb.post, DataKind.json, Option.some (Payload.data data)⟩

def getGuild (guildId : String) (with_counts : Option Bool) : Request δ :=
  ⟨Endpoints.GUILD guildId ++
      (match with_counts with
       | Option.some b => "?with_counts=" ++ (if b then "true" else "false")
       | Option.none => ""),
    Verb.get, DataKind.json, Option.none⟩

def getGuildPreview (guildId : String) : Request δ :=
  ⟨Endpoints.GUILD_PREVIEW guildId, Verb.get, DataKind.json, Option.none⟩

def updateGuild (guildId : String) (data : δ) : Request δ :=
  ⟨Endpoints.GUILD guildId, Verb.patch, DataKind.json, Option.some (Payload.data data)⟩

def deleteGuild (guildId : String) : Request δ :=
  ⟨Endpoints.GUILD guildId, Verb.delete, DataKind.json, Option.none⟩

def getGuildChannels (guildId : String) : Request δ :=
  ⟨Endpoints.GUILD_CHANNELS guildId, Verb.get, DataKind.json, Option.none⟩

def createGuildChannel (guildId : String) (data : δ) : Request δ :=
  ⟨Endpoints.GUILD_CHANNELS guildId, Verb.post, DataKind.json, Option.some (Payload.data data)⟩

def updateChannelPositions (guildId : String) (data : δ) : Request δ :=
  ⟨Endpoints.GUILD_CHANNELS guildId, Verb.patch, DataKind.json, Option.some (Payload.data data)⟩

def listActiveThreads (guildId : String) : Request δ :=
  ⟨Endpoints.GUILD_THREADS_ACTIVE guildId, Verb.get, DataKind.json, Option.none⟩

def getGuildMember (guildId memberId : String) : Request δ :=
  ⟨Endpoints.GUILD_MEMBER guildId memberId, Verb.get, DataKind.json, Option.none⟩

def getGuildMembers (guildId : String) (data : Option δ) : Request δ :=
  ⟨Endpoints.GUILD_MEMBERS guildId, Verb.get, DataKind.json, data.map Payload.data⟩

def searchGuildMembers (C : Constants) (guildId : String) (options : SearchOptions) :
    Except String (Request δ) :=
  if limitOutOfRange C options.limit then
    Except.error ("RangeError: Limit for searching guild members has to be between " ++
      toString C.SEARCH_MEMBERS_MIN_RESULTS ++ " and " ++ toString C.SEARCH_MEMBERS_MAX_RESULTS)
  else
    Except.ok ⟨Endpoints.GUILD_MEMBERS_SEARCH guildId, Verb.get, DataKind.json,
      Option.some (Payload.search options.query options.limit)⟩

def addGuildMember (guildId memberId : String) (data : δ) : Request δ :=
  ⟨Endpoints.GUILD_MEMBER guildId memberId, Verb.put, DataKind.json,
    Option.some (Payload.data data)⟩

def updateGuildMember (guildId memberId : String) (data : δ) : Request δ :=
  ⟨Endpoints.GUILD_MEMBER guildId memberId, Verb.patch, DataKind.json,
    Option.some (Payload.data data)⟩

def updateSelf (guildId : String) (data : δ) : Request δ :=
  ⟨Endpoints.GUILD_MEMBER guildId "@me", Verb.patch, DataKind.json,
    Option.some (Payload.data data)⟩

def addGuildMemberRole (guildId memberId roleId : String) (data : Option δ) : Request δ :=
  ⟨Endpoints.GUILD_MEMBER_ROLE guildId memberId roleId, Verb.put, DataKind.json,
    data.map Payload.data⟩

def removeGuildMemberRole (guildId memberId roleId : String) (reason : Option String) :
    Request δ :=
  ⟨Endpoints.GUILD_MEMBER_ROLE guildId memberId roleId, Verb.delete, DataKind.json,
    reasonPayload δ reason⟩

def removeGuildMember (guildId memberId : String) (reason : Option String) : Request δ :=
  ⟨Endpoints.GUILD_MEMBER guildId memberId, Verb.delete, DataKind.json, reasonPayload δ reason⟩

def getGuildBans (guildId : String) (options : Option (List (String × String))) : Request δ :=
  ⟨Endpoints.GUILD_BANS guildId ++
      (match options with
       | Option.some opts => joinWith "," (queryFragments opts)
       | Option.none => ""),
    Verb.get, DataKind.json, Option.none⟩

def getGuildBan (guildId memberId : String) : Request δ :=
  ⟨Endpoints.GUILD_BAN guildId memberId, Verb.get, DataKind.json, Option.none⟩

def createGuildBan (guildId memberId : String) (data : Option δ) : Request δ :=
  ⟨Endpoints.GUILD_BAN guildId memberId, Verb.put, DataKind.json, data.map Payload.data⟩

def removeGuildBan (guildId memberId : String) (reason : Option String) : Request δ :=
  ⟨Endpoints.GUILD_BAN guildId memberId, Verb.delete, DataKind.json, reasonPayload δ reason⟩

def getGuildRoles (guildId : String) : Request δ :=
  ⟨Endpoints.GUILD_ROLES guildId, Verb.get, DataKind.json, Option.none⟩

def createGuildRole (guildId : String) (data : Option δ) : Request δ :=
  ⟨Endpoints.GUILD_ROLES guildId, Verb.post, DataKind.json, data.map Payload.data⟩

def updateGuildRolePositions (guildId : String) (data : δ) : Request δ :=
  ⟨Endpoints.GUILD_ROLES guildId, Verb.patch, DataKind.json, Option.some (Payload.data data)⟩

def updateGuildRole (guildId roleId : String) (data : δ) : Request δ :=
  ⟨Endpoints.GUILD_ROLE guildId roleId, Verb.patch, DataKind.json, Option.some (Payload.data data)⟩

def removeGuildRole (guildId roleId : String) (reason : Option String) : Request δ :=
  ⟨Endpoints.GUILD_ROLE guildId roleId, Verb.delete, DataKind.json, reasonPayload δ reason⟩

def getGuildPruneCount (guildId : String) (query : Option (List (String × String))) : Request δ :=
  ⟨Endpoints.GUILD_PRUNE guildId ++
      (match query with
       | Option.some opts => joinWith "" (queryFragments opts)
       | Option.none => ""),
    Verb.get, DataKind.json, Option.none⟩

def startGuildPrune (guildId : String) (data : δ) : Request δ :=
  ⟨Endpoints.GUILD_PRUNE guildId, Verb.post, DataKind.json, Option.some (Payload.data data)⟩

def getGuildVoiceRegions (guildId : String) : Request δ :=
  ⟨Endpoints.GUILD_VOICE_REGIONS guildId, Verb.get, DataKind.json, Option.none⟩

def getGuildInvites (guildId : String) : Request δ :=
  ⟨Endpoints.GUILD_INVITES guildId, Verb.get, DataKind.json, Option.none⟩

def getGuildIntegrations (guildId : String) : Request δ :=
  ⟨Endpoints.GUILD_INTEGRATIONS guildId, Verb.get, DataKind.json, Option.none⟩

def removeGuildIntegration (guildId integrationId : String) (reason : Option String) : Request δ :=
  ⟨Endpoints.GUILD_INTEGRATION guildId integrationId, Verb.delete, DataKind.json,
    reasonPayload δ reason⟩

def getGuildWidgetSettings (guildId : String) : Request δ :=
  ⟨Endpoints.GUILD_WIDGET_SETTINGS guildId, Verb.get, DataKind.json, Option.none⟩

def updateGuildWidgetSettings (guildId : String) (data : δ) : Request δ :=
  ⟨Endpoints.GUILD_WIDGET_SETTINGS guildId, Verb.patch, DataKind.json,
    Option.some (Payload.data data)⟩

def getGuildWidget (guildId : String) : Request δ :=
  ⟨Endpoints.GUILD_WIDGET guildId, Verb.get, DataKind.json, Option.none⟩

def getGuildVanityURL (guildId : String) : Request δ :=
  ⟨Endpoints.GUILD_VANITY guildId, Verb.get, DataKind.json, Option.none⟩

def getGuildWelcomeScreen (guildId : String) : Request δ :=
  ⟨Endpoints.GUILD_WELCOME_SCREEN guildId, Verb.get, DataKind.json, Option.none⟩

def editGuildWelcomeScreen (guildId : String) (data : δ) : Request δ :=
  ⟨Endpoints.GUILD_WELCOME_SCREEN guildId, Verb.patch, DataKind.json,
    Option.some (Payload.data data)⟩

def updateCurrentUserVoiceState (guildId : String) (data : δ) : Request δ :=
  ⟨Endpoints.GUILD_VOICE_STATE_USER guildId "@me", Verb.patch, DataKind.json,
    Option.some (Payload.data data)⟩

def updateUserVoiceState (guildId userId : String) (data : δ) : Request δ :=
  ⟨Endpoints.GUILD_VOICE_STATE_USER guildId userId, Verb.patch, DataKind.json,
    Option.some (Payload.data data)⟩

end GuildMethods

namespace GuildAssetsMethods

variable {δ : Type}

def getEmojis (guildId : String) : Request δ :=
  ⟨Endpoints.GUILD_EMOJIS guildId, Verb.get, DataKind.json, Option.none⟩

def getEmoji (guildId emojiId : String) : Request δ :=
  ⟨Endpoints.GUILD_EMOJI guildId emojiId, Verb.get, DataKind.json, Option.none⟩

def createEmoji (guildId : String) (data : δ) : Request δ :=
  ⟨Endpoints.GUILD_EMOJIS guildId, Verb.post, DataKind.json, Option.some (Payload.data data)⟩

def updateEmoji (guildId emojiId : String) (data : δ) : Request δ :=
  ⟨Endpoints.GUILD_EMOJI guildId emojiId, Verb.patch, DataKind.json,
    Option.some (Payload.data data)⟩

def deleteEmoji (guildId emojiId : String) (reason : Option String) : Request δ :=
  ⟨Endpoints.GUILD_EMOJI guildId emojiId, Verb.delete, DataKind.json, reasonPayload δ reason⟩

def getSticker (stickerId : String) : Request δ :=
  ⟨Endpoints.STICKER stickerId, Verb.get, DataKind.json, Option.none⟩

def getGuildStickers (guildId : String) : Request δ :=
  ⟨Endpoints.GUILD_STICKERS guildId, Verb.get, DataKind.json, Option.none⟩

def getGuildSticker (guildId stickerId : String) : Request δ :=
  ⟨Endpoints.GUILD_STICKER guildId stickerId, Verb.get, DataKind.json, Option.none⟩

def createGuildSticker (guildId : String) (data : δ) : Request δ :=
  ⟨Endpoints.GUILD_STICKERS guildId, Verb.post, DataKind.multipart,
    Option.some (Payload.data data)⟩

def updateGuildSticker (guildId stickerId : String) (data : δ) : Request δ :=
  ⟨Endpoints.GUILD_STICKER guildId stickerId, Verb.patch, DataKind.json,
    Option.some (Payload.data data)⟩

def deleteGuildSticker (guildId stickerId : String) (reason : Option String) : Request δ :=
  ⟨Endpoints.GUILD_STICKER guildId stickerId, Verb.delete, DataKind.json, reasonPayload δ reason⟩

end GuildAssetsMethods

namespace InviteMethods

variable {δ : Type}

def getInvite (inviteId : String) (query : Option (List (String × String))) : Request δ :=
  ⟨Endpoints.INVITES inviteId ++
      (match query with
       | Option.some opts => joinWith "" (queryFragments opts)
       | Option.none => ""),
    Verb.get, DataKind.json, Option.none⟩

def deleteInvite (inviteId : String) : Request δ :=
  ⟨Endpoints.INVITES inviteId, Verb.delete, DataKind.json, Option.none⟩

end InviteMethods

namespace BotMethods

variable {δ : Type}

def getGateway : Request δ :=
  ⟨Endpoints.GATEWAY, Verb.get, DataKind.json, Option.none⟩

def getGatewayBot : Request δ :=
  ⟨Endpoints.GATEWAY_BOT, Verb.get, DataKind.json, Option.none⟩

def getOAuthApplication (appID : Option String) : Request δ :=
  ⟨Endpoints.OAUTH2_APPLICATION
      (match appID with
       | Option.some s => if s = "" then "@me" else s
       | Option.none => "@me"),
    Verb.get, DataKind.json, Option.none⟩

end BotMethods

namespace GuildTemplateMethods

variable {δ : Type}

def getGuildTemplate (code : String) : Request δ :=
  ⟨Endpoints.TEMPLATE code, Verb.get, DataKind.json, Option.none⟩

def createGuildFromGuildTemplate (code : String) (options : δ) : Request δ :=
  ⟨Endpoints.TEMPLATE code, Verb.post, DataKind.json, Option.some (Payload.data options)⟩

def getGuildTemplates (guildId : String) : Request δ :=
  ⟨Endpoints.GUILD_TEMPLATES guildId, Verb.get, DataKind.json, Option.none⟩

def createGuildTemplate (guildId : String) (data : δ) : Request δ :=
  ⟨Endpoints.GUILD_TEMPLATES guildId, Verb.post, DataKind.json, Option.some (Payload.data data)⟩

def syncGuildTemplate (guildId code : String) : Request δ :=
  ⟨Endpoints.GUILD_TEMPLATE guildId code, Verb.put, DataKind.json, Option.none⟩

def modifyGuildTemplate (guildId code : String) (data : δ) : Request δ :=
  ⟨Endpoints.GUILD_TEMPLATE guildId code, Verb.patch, DataKind.json,
    Option.some (Payload.data data)⟩

def deleteGuildTemplate (guildId code : String) : Request δ :=
  ⟨Endpoints.GUILD_TEMPLATE guildId code, Verb.delete, DataKind.json, Option.none⟩

end GuildTemplateMethods

namespace AuditLogMethods

variable {δ : Type}

def getAuditLog (guildId : String) (data : Option δ) : Request δ :=
  ⟨Endpoints.GUILD_AUDIT_LOGS guildId, Verb.get, DataKind.json, data.map Payload.data⟩

end AuditLogMethods

/-- One call to a public endpoint-wrapper method, with its arguments.  Every
public method of the six wrapper classes in the sources appears as one
constructor. -/
inductive WrapperCall (δ : Type)
| createGuild (data : δ)
| getGuild (guildId : String) (with_counts : Option Bool)
| getGuildPreview (guildId : String)
| updateGuild (guildId : String) (data : δ)
| deleteGuild (guildId : String)
| getGuildChannels (guildId : String)
| createGuildChannel (guildId : String) (data : δ)
| updateChannelPositions (guildId : String) (data : δ)
| listActiveThreads (guildId : String)
| getGuildMember (guildId memberId : String)
| getGuildMembers (guildId : String) (data : Option δ)
| searchGuildMembers (guildId : String) (options : SearchOptions)
| addGuildMember (guildId memberId : String) (data : δ)
| updateGuildMember (guildId memberId : String) (data : δ)
| updateSelf (guildId : String) (data : δ)
| addGuildMemberRole (guildId memberId roleId : String) (data : Option δ)
| removeGuildMemberRole (guildId memberId roleId : String) (reason : Option String)
| removeGuildMember (guildId memberId : String) (reason : Option String)
| getGuildBans (guildId : String) (options : Option (List (String × String)))
| getGuildBan (guildId memberId : String)
| createGuildBan (guildId memberId : String) (data : Option δ)
| removeGuildBan (guildId memberId : String) (reason : Option String)
| getGuildRoles (guildId : String)
| createGuildRole (guildId : String) (data : Option δ)
| updateGuildRolePositions (guildId : String) (data : δ)
| updateGuildRole (guildId roleId : String) (data : δ)
| removeGuildRole (guildId roleId : String) (reason : Option String)
| getGuildPruneCount (guildId : String) (query : Option (List (String × String)))
| startGuildPrune (guildId : String) (data : δ)
| getGuildVoiceRegions (guildId : String)
| getGuildInvites (guildId : String)
| getGuildIntegrations (guildId : String)
| removeGuildIntegration (guildId integrationId : String) (reason : Option String)
| getGuildWidgetSettings (guildId : String)
| updateGuildWidgetSettings (guildId : String) (data : δ)
| getGuildWidget (guildId : String)
| getGuildVanityURL (guildId : String)
| getGuildWelcomeScreen (guildId : String)
| editGuildWelcomeScreen (guildId : String) (data : δ)
| updateCurrentUserVoiceState (guildId : String) (data : δ)
| updateUserVoiceState (guildId userId : String) (data : δ)
| getEmojis (guildId : String)
| getEmoji (guildId emojiId : String)
| createEmoji (guildId : String) (data : δ)
| updateEmoji (guildId emojiId : String) (data : δ)
| deleteEmoji (guildId emojiId : String) (reason : Option String)
| getSticker (stickerId : String)
| getGuildStickers (guildId : String)
| getGuildSticker (guildId stickerId : String)
| createGuildSticker (guildId : String) (data : δ)
| updateGuildSticker (guildId stickerId : String) (data : δ)
| deleteGuildSticker (guildId stickerId : String) (reason : Option String)
| getInvite (inviteId : String) (query : Option (List (String × String)))
| deleteInvite (inviteId : String)
| getGateway
| getGatewayBot
| getOAuthApplication (appID : Option String)
| getGuildTemplate (code : String)
| createGuildFromGuildTemplate (code : String) (options : δ)
| getGuildTemplates (guildId : String)
| createGuildTemplate (guildId : String) (data : δ)
| syncGuildTemplate (guildId code : String)
| modifyGuildTemplate (guildId code : String) (data : δ)
| deleteGuildTemplate (guildId code : String)
| getAuditLog (guildId : String) (data : Option δ)

/-- What one wrapper call hands to the dispatcher: the built request, or the
synchronously thrown error.  Every branch but `searchGuildMembers` hands the
dispatcher exactly one request unconditionally. -/
def dispatch {δ : Type} (C : Constants) : WrapperCall δ → Except String (Request δ)
| WrapperCall.createGuild d => Except.ok (GuildMethods.createGuild d)
| WrapperCall.getGuild g wc => Except.ok (GuildMethods.getGuild g wc)
| WrapperCall.getGuildPreview g => Except.ok (GuildMethods.getGuildPreview g)
| WrapperCall.updateGuild g d => Except.ok (GuildMethods.updateGuild g d)
| WrapperCall.deleteGuild g => Except.ok (GuildMethods.deleteGuild g)
| WrapperCall.getGuildChannels g => Except.ok (GuildMethods.getGuildChannels g)
| WrapperCall.createGuildChannel g d => Except.ok (GuildMethods.createGuildChannel g d)
| WrapperCall.updateChannelPositions g d => Except.ok (GuildMethods.updateChannelPositions g d)
| WrapperCall.listActiveThreads g => Except.ok (GuildMethods.listActiveThreads g)
| WrapperCall.getGuildMember g m => Except.ok (GuildMethods.getGuildMember g m)
| WrapperCall.getGuildMembers g d => Except.ok (GuildMethods.getGuildMembers g d)
| WrapperCall.searchGuildMembers g o => GuildMethods.searchGuildMembers C g o
| WrapperCall.addGuildMember g m d => Except.ok (GuildMethods.addGuildMember g m d)
| WrapperCall.updateGuildMember g m d => Except.ok (GuildMethods.updateGuildMember g m d)
| WrapperCall.updateSelf g d => Except.ok (GuildMethods.updateSelf g d)
| WrapperCall.addGuildMemberRole g m r d => Except.ok (GuildMethods.addGuildMemberRole g m r d)
| WrapperCall.removeGuildMemberRole g m r s =>
    Except.ok (GuildMethods.removeGuildMemberRole g m r s)
| WrapperCall.removeGuildMember g m s => Except.ok (GuildMethods.removeGuildMember g m s)
| WrapperCall.getGuildBans g o => Except.ok (GuildMethods.getGuildBans g o)
| WrapperCall.getGuildBan g m => Except.ok (GuildMethods.getGuildBan g m)
| WrapperCall.createGuildBan g m d => Except.ok (GuildMethods.createGuildBan g m d)
| WrapperCall.removeGuildBan g m s => Except.ok (GuildMethods.removeGuildBan g m s)
| WrapperCall.getGuildRoles g => Except.ok (GuildMethods.getGuildRoles g)
| WrapperCall.createGuildRole g d => Except.ok (GuildMethods.createGuildRole g d)
| WrapperCall.updateGuildRolePositions g d =>
    Except.ok (GuildMethods.updateGuildRolePositions g d)
| WrapperCall.updateGuildRole g r d => Except.ok (GuildMethods.updateGuildRole g r d)
| WrapperCall.removeGuildRole g r s => Except.ok (GuildMethods.removeGuildRole g r s)
| WrapperCall.getGuildPruneCount g q => Except.ok (GuildMethods.getGuildPruneCount g q)
| WrapperCall.startGuildPrune g d => Except.ok (GuildMethods.startGuildPrune g d)
| WrapperCall.getGuildVoiceRegions g => Except.ok (GuildMethods.getGuildVoiceRegions g)
| WrapperCall.getGuildInvites g => Except.ok (GuildMethods.getGuildInvites g)
| WrapperCall.getGuildIntegrations g => Except.ok (GuildMethods.getGuildIntegrations g)
| WrapperCall.removeGuildIntegration g i s =>
    Except.ok (GuildMethods.removeGuildIntegration g i s)
| WrapperCall.getGuildWidgetSettings g => Except.ok (GuildMethods.getGuildWidgetSettings g)
| WrapperCall.updateGuildWidgetSettings g d =>
    Except.ok (GuildMethods.updateGuildWidgetSettings g d)
| WrapperCall.getGuildWidget g => Except.ok (GuildMethods.getGuildWidget g)
| WrapperCall.getGuildVanityURL g => Except.ok (GuildMethods.getGuildVanityURL g)
| WrapperCall.getGuildWelcomeScreen g => Except.ok (GuildMethods.getGuildWelcomeScreen g)
| WrapperCall.editGuildWelcomeScreen g d => Except.ok (GuildMethods.editGuildWelcomeScreen g d)
| WrapperCall.updateCurrentUserVoiceState g d =>
    Except.ok (GuildMethods.updateCurrentUserVoiceState g d)
| WrapperCall.updateUserVoiceState g u d => Except.ok (GuildMethods.updateUserVoiceState g u d)
| WrapperCall.getEmojis g => Except.ok (GuildAssetsMethods.getEmojis g)
| WrapperCall.getEmoji g e => Except.ok (GuildAssetsMethods.getEmoji g e)
| WrapperCall.createEmoji g d => Except.ok (GuildAssetsMethods.createEmoji g d)
| WrapperCall.updateEmoji g e d => Except.ok (GuildAssetsMethods.updateEmoji g e d)
| WrapperCall.deleteEmoji g e s => Except.ok (GuildAssetsMethods.deleteEmoji g e s)
| WrapperCall.getSticker s => Except.ok (GuildAssetsMethods.getSticker s)
| WrapperCall.getGuildStickers g => Except.ok (GuildAssetsMethods.getGuildStickers g)
| WrapperCall.getGuildSticker g s => Except.ok (GuildAssetsMethods.getGuildSticker g s)
| WrapperCall.createGuildSticker g d => Except.ok (GuildAssetsMethods.createGuildSticker g d)
| WrapperCall.updateGuildSticker g s d =>
    Except.ok (GuildAssetsMethods.updateGuildSticker g s d)
| WrapperCall.deleteGuildSticker g s r =>
    Except.ok (GuildAssetsMethods.deleteGuildSticker g s r)
| WrapperCall.getInvite i q => Except.ok (InviteMethods.getInvite i q)
| WrapperCall.deleteInvite i => Except.ok (InviteMethods.deleteInvite i)
| WrapperCall.getGateway => Except.ok BotMethods.getGateway
| WrapperCall.getGatewayBot => Except.ok BotMethods.getGatewayBot
| WrapperCall.getOAuthApplication a => Except.ok (BotMethods.getOAuthApplication a)
| WrapperCall.getGuildTemplate c => Except.ok (GuildTemplateMethods.getGuildTemplate c)
| WrapperCall.createGuildFromGuildTemplate c o =>
    Except.ok (GuildTemplateMethods.createGuildFromGuildTemplate c o)
| WrapperCall.getGuildTemplates g => Except.ok (GuildTemplateMethods.getGuildTemplates g)
| WrapperCall.createGuildTemplate g d =>
    Except.ok (GuildTemplateMethods.createGuildTemplate g d)
| WrapperCall.syncGuildTemplate g c => Except.ok (GuildTemplateMethods.syncGuildTemplate g c)
| WrapperCall.modifyGuildTemplate g c d =>
    Except.ok (GuildTemplateMethods.modifyGuildTemplate g c d)
| WrapperCall.deleteGuildTemplate g c =>
    Except.ok (GuildTemplateMethods.deleteGuildTemplate g c)
| WrapperCall.getAuditLog g d => Except.ok (AuditLogMethods.getAuditLog g d)

/-- Pointwise update of a per-bucket table. -/
def updAt (f : Nat → List Nat) (b : Nat) (v : List Nat) : Nat → List Nat :=
  fun b' => if b' = b then v else f b'

/-- Modelled from the spec: the Bucket Queue / Scheduler of §4.3 (the
`RequestHandler` and ratelimit bucket sources are not among the files at
hand).  Buckets are indexed by `Nat`; requests are identified by `Nat` ids.
`queue b` is bucket `b`'s pending FIFO queue, `inFlight b` the (per the
admission rule, at most one) dispatched-but-unsettled requests of `b`;
`submitted` and `completed` record the history of submissions and
completions in order, tagged with their bucket. -/
structure SchedState where
  queue : Nat → List Nat
  inFlight : Nat → List Nat
  submitted : List (Nat × Nat)
  completed : List (Nat × Nat)

/-- A caller submits a request: it is appended to its bucket's queue. -/
def SchedState.submit (s : SchedState) (b rid : Nat) : SchedState :=
  { s with queue := updAt s.queue b (s.queue b ++ [rid]),
           submitted := s.submitted ++ [(b, rid)] }

/-- The scheduler dispatches the head of bucket `b`'s queue, marking it
in flight. -/
def SchedState.dispatchHead (s : SchedState) (b : Nat) : SchedState :=
  { s with queue := updAt s.queue b (s.queue b).tail,
           inFlight := updAt s.inFlight b (s.inFlight b ++ (s.queue b).take 1) }

/-- The Response Interpreter finishes processing request `rid` of bucket `b`:
its completion handle settles and the in-flight mark is cleared. -/
def SchedState.finish (s : SchedState) (b rid : Nat) : SchedState :=
  { s with inFlight := updAt s.inFlight b ((s.inFlight b).erase rid),
           completed := s.completed ++ [(b, rid)] }

/-- Modelled from the spec: one step of the scheduler.  Submissions are
unrestricted; a dispatch requires the bucket idle (`inFlight` empty) and a
pending request; a completion settles some in-flight request of its bucket. -/
inductive SchedStep : SchedState → SchedState → Prop
| submit (s : SchedState) (b rid : Nat) : SchedStep s (s.submit b rid)
| dispatchHead (s : SchedState) (b : Nat) (hIdle : s.inFlight b = [])
    (hQ : s.queue b ≠ []) : SchedStep s (s.dispatchHead b)
| finish (s : SchedState) (b rid : Nat) (hIn : rid ∈ s.inFlight b) :
    SchedStep s (s.finish b rid)

/-- The scheduler's start state: everything empty. -/
def initState : SchedState :=
  { queue := fun _ => [], inFlight := fun _ => [], submitted := [], completed := [] }

/-- States the scheduler can reach from its start state. -/
inductive SchedReachable : SchedState → Prop
| init : SchedReachable initState
| step {s t : SchedState} : SchedReachable s → SchedStep s t → SchedReachable t

/-- The requests of bucket `b` in a tagged history, in history order. -/
def bucketOf (b : Nat) (l : List (Nat × Nat)) : List Nat :=
  (l.filter fun p => p.1 == b).map Prod.snd

/-- The inductive scheduler invariant: per bucket, the submission history
splits into completions, the in-flight request, and the queue, in that
order, and at most one request is in flight. -/
def SchedInv (s : SchedState) : Prop :=
  ∀ b, bucketOf b s.submitted = bucketOf b s.completed ++ s.inFlight b ++ s.queue b ∧
    (s.inFlight b).length ≤ 1

/-- Modelled from the spec: the Bucket Store of §4.2.  Here only the
rate-limit window fields; queue bookkeeping lives in `SchedState`. -/
structure Bucket where
  limit : Nat
  remaining : Nat
  resetAt : Nat
deriving DecidableEq, Repr

/-- Modelled from the spec: `reconcile` is called after every response and
overwrites `limit`/`remaining`/`resetAt` with the freshest header values,
monotonically: a `resetAt` older than the stored one must not roll the
window backward. -/
def Bucket.reconcile (b : Bucket) (limit remaining resetAt : Nat) : Bucket :=
  { limit := limit, remaining := remaining, resetAt := max b.resetAt resetAt }

/-- A raw HTTP response: status code and (error) body, surfaced verbatim. -/
structure HttpResp where
  status : Nat
  body : String
deriving DecidableEq, Repr

/-- The outcome of one dispatch attempt as seen by the Response Interpreter:
either no response was obtained, or a response with status and body. -/
inductive RespEvent
| transportFailure
| response (r : HttpResp)
deriving DecidableEq, Repr

/-- A terminal error settled into a request's completion handle. -/
inductive SnowErr
| network
| http (status : Nat) (body : String)
deriving DecidableEq, Repr

/-- The tagged outcome of classifying one response (spec §4.5 and §9: retry
decisions are a pure function returning a tagged outcome). -/
inductive Outcome
| retryBackoff
| retryRateLimited
| fail (e : SnowErr)
| succeed (body : String)
deriving DecidableEq, Repr

/-- Modelled from the spec: the Response Interpreter's classification of one
dispatch attempt, in the order of §4.5: transport failure → retryable;
429 → forced retry; 5xx → retryable with backoff; any other non-2xx →
terminal structured HTTP error with status and body; 2xx → success. -/
def classify : RespEvent → Outcome
| RespEvent.transportFailure => Outcome.retryBackoff
| RespEvent.response r =>
  if r.status = 429 then Outcome.retryRateLimited
  else if 500 ≤ r.status ∧ r.status ≤ 599 then Outcome.retryBackoff
  else if 200 ≤ r.status ∧ r.status ≤ 299 then Outcome.succeed r.body
  else Outcome.fail (SnowErr.http r.status r.body)

/-- Whether an outcome asks for another dispatch attempt. -/
def Outcome.isRetry : Outcome → Bool
| Outcome.retryBackoff => true
| Outcome.retryRateLimited => true
| Outcome.fail _ => false
| Outcome.succeed _ => false

/-- The value a non-retry outcome settles into the completion handle. -/
def Outcome.settleNow : Outcome → Option (Except SnowErr String)
| Outcome.succeed body => Option.some (Except.ok body)
| Outcome.fail e => Option.some (Except.error e)
| Outcome.retryBackoff => Option.none
| Outcome.retryRateLimited => Option.none

/-- Modelled from the spec: the retry loop driving one request to settlement.
The list holds the outcome of each successive dispatch attempt; the `Nat`
budget bounds the retries, which exhaust into a network-class error.
Returns the settled value of the completion handle (`Option.none` when the
supplied attempts ran out before settling) together with the number of
retry attempts performed. -/
def drive : Nat → List RespEvent → Option (Except SnowErr String) × Nat
| _, [] => (Option.none, 0)
| 0, ev :: _ =>
  if (classify ev).isRetry then (Option.some (Except.error SnowErr.network), 0)
  else ((classify ev).settleNow, 0)
| b + 1, ev :: rest =>
  if (classify ev).isRetry then ((drive b rest).1, (drive b rest).2 + 1)
  else ((classify ev).settleNow, 0)

theorem bucketOf_append_one (b b' r : Nat) (l : List (Nat × Nat)) :
    bucketOf b (l ++ [(b', r)]) = bucketOf b l ++ (if b' = b then [r] else []) := by
  by_cases h : b' = b <;> simp [bucketOf, List.filter_append, h]

theorem updAt_self (f : Nat → List Nat) (b : Nat) (v : List Nat) : updAt f b v b = v := by
  simp [updAt]

theorem updAt_other (f : Nat → List Nat) (b : Nat) (v : List Nat) (b' : Nat) (h : b' ≠ b) :
    updAt f b v b' = f b' := by
  simp [updAt, h]

theorem schedInv_init : SchedInv initState := by
  intro b
  exact ⟨by simp [initState, bucketOf], by simp [initState]⟩

theorem schedInv_step {s t : SchedState} (h : SchedStep s t) (ih : SchedInv s) : SchedInv t := by
  cases h with
  | submit b rid =>
    intro b'
    obtain ⟨heq, hlen⟩ := ih b'
    refine ⟨?_, by simpa [SchedState.submit] using hlen⟩
    show bucketOf b' (s.submitted ++ [(b, rid)]) =
      bucketOf b' s.completed ++ s.inFlight b' ++ updAt s.queue b (s.queue b ++ [rid]) b'
    rw [bucketOf_append_one, heq]
    by_cases hb : b = b'
    · subst hb
      simp [updAt_self, List.append_assoc]
    · simp [updAt_other _ _ _ _ (Ne.symm hb), hb]
  | dispatchHead b hIdle hQ =>
    obtain ⟨q0, qt, hq⟩ := List.exists_cons_of_ne_nil hQ
    intro b'
    obtain ⟨heq, hlen⟩ := ih b'
    by_cases hb : b = b'
    · subst hb
      refine ⟨?_, ?_⟩
      · show bucketOf b s.submitted = bucketOf b s.completed ++
          updAt s.inFlight b (s.inFlight b ++ (s.queue b).take 1) b ++
          updAt s.queue b (s.queue b).tail b
        rw [heq, updAt_self, updAt_self, hIdle, hq]
        simp
      · show (updAt s.inFlight b (s.inFlight b ++ (s.queue b).take 1) b).length ≤ 1
        rw [updAt_self, hIdle, hq]
        simp
    · refine ⟨?_, ?_⟩
      · show bucketOf b' s.submitted = bucketOf b' s.completed ++
          updAt s.inFlight b (s.inFlight b ++ (s.queue b).take 1) b' ++
          updAt s.queue b (s.queue b).tail b'
        rw [updAt_other _ _ _ _ (Ne.symm hb), updAt_other _ _ _ _ (Ne.symm hb)]
        exact heq
      · show (updAt s.inFlight b (s.inFlight b ++ (s.queue b).take 1) b').length ≤ 1
        rw [updAt_other _ _ _ _ (Ne.symm hb)]
        exact hlen
  | finish b rid hIn =>
    obtain ⟨heqb, hlenb⟩ := ih b
    have hpos : 0 < (s.inFlight b).length :=
      List.length_pos.mpr (List.ne_nil_of_mem hIn)
    obtain ⟨a, ha⟩ := List.length_eq_one.mp (Nat.le_antisymm hlenb hpos)
    have hra : rid = a := by
      rw [ha] at hIn
      simpa using hIn
    rw [← hra] at ha
    intro b'
    obtain ⟨heq, hlen⟩ := ih b'
    by_cases hb : b = b'
    · subst hb
      refine ⟨?_, ?_⟩
      · show bucketOf b s.submitted = bucketOf b (s.completed ++ [(b, rid)]) ++
          updAt s.inFlight b ((s.inFlight b).erase rid) b ++ s.queue b
        rw [bucketOf_append_one, updAt_self, heq, ha]
        simp
      · show (updAt s.inFlight b ((s.inFlight b).erase rid) b).length ≤ 1
        rw [updAt_self, ha]
        simp
    · refine ⟨?_, ?_⟩
      · show bucketOf b' s.submitted = bucketOf b' (s.completed ++ [(b, rid)]) ++
          updAt s.inFlight b ((s.inFlight b).erase rid) b' ++ s.queue b'
        rw [bucketOf_append_one, updAt_other _ _ _ _ (Ne.symm hb), if_neg hb]
        simpa using heq
      · show (updAt s.inFlight b ((s.inFlight b).erase rid) b').length ≤ 1
        rw [updAt_other _ _ _ _ (Ne.symm hb)]
        exact hlen

theorem schedInv_reachable {s : SchedState} (h : SchedReachable s) : SchedInv s := by
  induction h with
  | init => exact schedInv_init
  | step _ hstep ih => exact schedInv_step hstep ih

/-- A concrete run: submit request 10 to bucket 0, then request 11 to
bucket 1; bucket 1 dispatches and completes first, then bucket 0. -/
def demoState : SchedState :=
  (((((initState.submit 0 10).submit 1 11).dispatchHead 1).finish 1 11).dispatchHead 0).finish 0 10

theorem demoState_reachable : SchedReachable demoState := by
  refine SchedReachable.step (SchedReachable.step (SchedReachable.step (SchedReachable.step
    (SchedReachable.step (SchedReachable.step SchedReachable.init
          (SchedStep.submit _ 0 10))
        (SchedStep.submit _ 1 11))
      (SchedStep.dispatchHead _ 1 ?_ ?_))
    (SchedStep.finish _ 1 11 ?_))
    (SchedStep.dispatchHead _ 0 ?_ ?_))
    (SchedStep.finish _ 0 10 ?_)
  all_goals decide

/-- Claim C3: for all requests submitted to the same Bucket, completion order
equals submission order (FIFO within one Bucket), for every interleaving of
submissions — in every reachable scheduler state, each bucket's completion
history is a prefix of its submission history; across different Buckets no
ordering is imposed — there is a reachable state in which the request
submitted second (to another bucket) completed first. -/
theorem fifo_within_bucket :
    (∀ s : SchedState, SchedReachable s → ∀ b : Nat,
      bucketOf b s.completed <+: bucketOf b s.submitted) ∧
    (∃ s : SchedState, SchedReachable s ∧
      s.submitted = [(0, 10), (1, 11)] ∧ s.completed = [(1, 11), (0, 10)]) := by
  constructor
  · intro s h b
    obtain ⟨heq, _⟩ := schedInv_reachable h b
    exact ⟨s.inFlight b ++ s.queue b, by rw [← List.append_assoc, ← heq]⟩
  · exact ⟨demoState, demoState_reachable, by decide, by decide⟩

/-- Claim C3 witness: the FIFO prefix property evaluated at the concrete
six-step run `demoState` for bucket 0. -/
theorem fifo_within_bucket_witness :
    bucketOf 0 demoState.completed <+: bucketOf 0 demoState.submitted :=
  fifo_within_bucket.1 demoState demoState_reachable 0

/-- Claim C4: in every reachable state of the scheduler, for each Bucket at
most one Request is in flight; no two Requests of the same Bucket ever have
overlapping in-flight execution. -/
theorem single_inflight_per_bucket (s : SchedState) (h : SchedReachable s) (b : Nat) :
    (s.inFlight b).length ≤ 1 :=
  (schedInv_reachable h b).2

/-- Claim C4 witness: the invariant evaluated at the concrete reachable state
`demoState` for bucket 1. -/
theorem single_inflight_per_bucket_witness : (demoState.inFlight 1).length ≤ 1 :=
  single_inflight_per_bucket demoState demoState_reachable 1

/-- Claim C5: Bucket Store reconcile is idempotent — applying it twice with
identical header values equals applying it once — and a `resetAt` older than
the stored one never moves the stored window backward: the stored `resetAt`
never decreases under reconcile. -/
theorem reconcile_idempotent_monotone (b : Bucket) (limit remaining resetAt : Nat) :
    (b.reconcile limit remaining resetAt).reconcile limit remaining resetAt =
      b.reconcile limit remaining resetAt ∧
    b.resetAt ≤ (b.reconcile limit remaining resetAt).resetAt := by
  refine ⟨?_, ?_⟩
  · simp [Bucket.reconcile, max_assoc]
  · exact le_max_left _ _

/-- Claim C6: a response whose status is non-2xx and neither 429 nor in
[500, 599] settles the request exactly once as a structured HTTP error
carrying the status code and the error body, with zero retry attempts,
whatever the retry budget and whatever responses could have followed. -/
theorem terminal_http_error_no_retry (budget : Nat) (r : HttpResp) (rest : List RespEvent)
    (h2xx : ¬(200 ≤ r.status ∧ r.status ≤ 299)) (h429 : r.status ≠ 429)
    (h5xx : ¬(500 ≤ r.status ∧ r.status ≤ 599)) :
    drive budget (RespEvent.response r :: rest) =
      (Option.some (Except.error (SnowErr.http r.status r.body)), 0) := by
  have hc : classify (RespEvent.response r) = Outcome.fail (SnowErr.http r.status r.body) := by
    simp [classify, h429, h5xx, h2xx]
  cases budget with
  | zero => simp [drive, hc, Outcome.isRetry, Outcome.settleNow]
  | succ b => simp [drive, hc, Outcome.isRetry, Outcome.settleNow]

/-- The spec's Scenario B error body. -/
def unknownBanBody : String := "\x7b\"code\": 10026, \"message\": \"Unknown Ban\"\x7d"

/-- Claim C6 witness: Scenario B — a 404 with the Unknown Ban body settles as
an HTTP error with status 404 and that body, with zero retries. -/
theorem terminal_http_error_no_retry_witness :
    drive 3 [RespEvent.response ⟨404, unknownBanBody⟩] =
      (Option.some (Except.error (SnowErr.http 404 unknownBanBody)), 0) :=
  terminal_http_error_no_retry 3 ⟨404, unknownBanBody⟩ [] (by decide) (by decide) (by decide)

/-- Claim C1: `searchGuildMembers` throws a `RangeError` synchronously — and
hands the dispatcher nothing — exactly when `options.limit` is defined and
lies outside the closed interval given by the two search-members constants;
otherwise validation passes and exactly the one search request is handed to
the dispatcher. -/
theorem searchGuildMembers_validation (C : Constants) (guildId : String) (q : String)
    (limit : Option Int) :
    ((∃ l, limit = Option.some l ∧
        (l < C.SEARCH_MEMBERS_MIN_RESULTS ∨ C.SEARCH_MEMBERS_MAX_RESULTS < l)) →
      GuildMethods.searchGuildMembers (δ := Unit) C guildId ⟨q, limit⟩ =
        Except.error ("RangeError: Limit for searching guild members has to be between " ++
          toString C.SEARCH_MEMBERS_MIN_RESULTS ++ " and " ++
          toString C.SEARCH_MEMBERS_MAX_RESULTS)) ∧
    ((∀ l, limit = Option.some l →
        C.SEARCH_MEMBERS_MIN_RESULTS ≤ l ∧ l ≤ C.SEARCH_MEMBERS_MAX_RESULTS) →
      GuildMethods.searchGuildMembers (δ := Unit) C guildId ⟨q, limit⟩ =
        Except.ok ⟨Endpoints.GUILD_MEMBERS_SEARCH guildId, Verb.get, DataKind.json,
          Option.some (Payload.search q limit)⟩) := by
  constructor
  · rintro ⟨l, rfl, hl⟩
    have hout : limitOutOfRange C (Option.some l) = true := by
      simp only [limitOutOfRange, Bool.or_eq_true, decide_eq_true_eq]
      exact hl
    simp [GuildMethods.searchGuildMembers, hout]
  · intro h
    have hout : limitOutOfRange C limit = false := by
      cases limit with
      | none => rfl
      | some l =>
        obtain ⟨h1, h2⟩ := h l rfl
        simp only [limitOutOfRange, Bool.or_eq_false_iff, decide_eq_false_iff_not, not_lt]
        exact ⟨h1, h2⟩
    simp [GuildMethods.searchGuildMembers, hout]

/-- Claim C1 witness: with representative bounds 1 and 1000, a limit of 0
rejects synchronously with no dispatcher call, and a limit of 5 produces
exactly the search request. -/
theorem searchGuildMembers_validation_witness :
    GuildMethods.searchGuildMembers (δ := Unit) defaultConstants "guild"
        ⟨"Wolke", Option.some 0⟩ =
      Except.error ("RangeError: Limit for searching guild members has to be between " ++
        toString defaultConstants.SEARCH_MEMBERS_MIN_RESULTS ++ " and " ++
        toString defaultConstants.SEARCH_MEMBERS_MAX_RESULTS) ∧
    GuildMethods.searchGuildMembers (δ := Unit) defaultConstants "guild"
        ⟨"Wolke", Option.some 5⟩ =
      Except.ok ⟨Endpoints.GUILD_MEMBERS_SEARCH "guild", Verb.get, DataKind.json,
        Option.some (Payload.search "Wolke" (Option.some 5))⟩ :=
  ⟨(searchGuildMembers_validation defaultConstants "guild" "Wolke" (Option.some 0)).1
      ⟨0, rfl, Or.inl (by decide)⟩,
   (searchGuildMembers_validation defaultConstants "guild" "Wolke" (Option.some 5)).2
      (fun l hl => by cases hl; exact ⟨by decide, by decide⟩)⟩

/-- Claim C2 counterexample: `searchGuildMembers` with an out-of-range limit
performs no dispatcher call at all — it throws a `RangeError` instead — so
not every public endpoint-wrapper call results in exactly one call to
`requestHandler.request` with no other effect. -/
theorem wrapper_single_dispatch_counterexample :
    dispatch (δ := Unit) defaultConstants
        (WrapperCall.searchGuildMembers "guild" ⟨"Wolke", Option.some 0⟩) =
      Except.error ("RangeError: Limit for searching guild members has to be between " ++
        toString defaultConstants.SEARCH_MEMBERS_MIN_RESULTS ++ " and " ++
        toString defaultConstants.SEARCH_MEMBERS_MAX_RESULTS) := by
  rfl

/-- Claim C2 (amended): every public endpoint-wrapper call that does not
throw the `searchGuildMembers` range-validation error hands the dispatcher
exactly one request, whose verb is one of get/post/put/patch/delete and
whose dataKind is json or multipart (hence within the documented
json/multipart/none set); the only wrapper call that fails to dispatch is
`searchGuildMembers` with an out-of-range limit. -/
theorem wrapper_single_dispatch (C : Constants) (c : WrapperCall Unit) :
    (∀ r : Request Unit, dispatch C c = Except.ok r →
      (r.verb = Verb.get ∨ r.verb = Verb.post ∨ r.verb = Verb.put ∨ r.verb = Verb.patch ∨
        r.verb = Verb.delete) ∧
      (r.dataKind = DataKind.json ∨ r.dataKind = DataKind.multipart)) ∧
    (∀ e : String, dispatch C c = Except.error e →
      ∃ g o, c = WrapperCall.searchGuildMembers g o ∧ limitOutOfRange C o.limit = true) := by
  cases c
  case searchGuildMembers g o =>
    by_cases hlim : limitOutOfRange C o.limit = true
    · refine ⟨fun r hr => ?_, fun e he => ⟨g, o, rfl, hlim⟩⟩
      simp [dispatch, GuildMethods.searchGuildMembers, hlim] at hr
    · refine ⟨fun r hr => ?_, fun e he => ?_⟩
      · simp only [dispatch, GuildMethods.searchGuildMembers, hlim, Bool.false_eq_true,
          if_false, Except.ok.injEq] at hr
        subst hr
        exact ⟨Or.inl rfl, Or.inl rfl⟩
      · simp [dispatch, GuildMethods.searchGuildMembers, hlim] at he
  all_goals
    refine ⟨fun r hr => ?_, fun e he => absurd he (by simp [dispatch])⟩
  all_goals
    simp only [dispatch, Except.ok.injEq] at hr
  all_goals
    subst hr
  all_goals
    exact ⟨by simp [GuildMethods.createGuild, GuildMethods.getGuild,
      GuildMethods.getGuildPreview, GuildMethods.updateGuild, GuildMethods.deleteGuild,
      GuildMethods.getGuildChannels, GuildMethods.createGuildChannel,
      GuildMethods.updateChannelPositions, GuildMethods.listActiveThreads,
      GuildMethods.getGuildMember, GuildMethods.getGuildMembers, GuildMethods.addGuildMember,
      GuildMethods.updateGuildMember, GuildMethods.updateSelf, GuildMethods.addGuildMemberRole,
      GuildMethods.removeGuildMemberRole, GuildMethods.removeGuildMember,
      GuildMethods.getGuildBans, GuildMethods.getGuildBan, GuildMethods.createGuildBan,
      GuildMethods.removeGuildBan, GuildMethods.getGuildRoles, GuildMethods.createGuildRole,
      GuildMethods.updateGuildRolePositions, GuildMethods.updateGuildRole,
      GuildMethods.removeGuildRole, GuildMethods.getGuildPruneCount,
      GuildMethods.startGuildPrune, GuildMethods.getGuildVoiceRegions,
      GuildMethods.getGuildInvites, GuildMethods.getGuildIntegrations,
      GuildMethods.removeGuildIntegration, GuildMethods.getGuildWidgetSettings,
      GuildMethods.updateGuildWidgetSettings, GuildMethods.getGuildWidget,
      GuildMethods.getGuildVanityURL, GuildMethods.getGuildWelcomeScreen,
      GuildMethods.editGuildWelcomeScreen, GuildMethods.updateCurrentUserVoiceState,
      GuildMethods.updateUserVoiceState, GuildAssetsMethods.getEmojis,
      GuildAssetsMethods.getEmoji, GuildAssetsMethods.createEmoji,
      GuildAssetsMethods.updateEmoji, GuildAssetsMethods.deleteEmoji,
      GuildAssetsMethods.getSticker, GuildAssetsMethods.getGuildStickers,
      GuildAssetsMethods.getGuildSticker, GuildAssetsMethods.createGuildSticker,
      GuildAssetsMethods.updateGuildSticker, GuildAssetsMethods.deleteGuildSticker,
      InviteMethods.getInvite, InviteMethods.deleteInvite, BotMethods.getGateway,
      BotMethods.getGatewayBot, BotMethods.getOAuthApplication,
      GuildTemplateMethods.getGuildTemplate, GuildTemplateMethods.createGuildFromGuildTemplate,
      GuildTemplateMethods.getGuildTemplates, GuildTemplateMethods.createGuildTemplate,
      GuildTemplateMethods.syncGuildTemplate, GuildTemplateMethods.modifyGuildTemplate,
      GuildTemplateMethods.deleteGuildTemplate, AuditLogMethods.getAuditLog],
      by simp [GuildMethods.createGuild, GuildMethods.getGuild,
      GuildMethods.getGuildPreview, GuildMethods.updateGuild, GuildMethods.deleteGuild,
      GuildMethods.getGuildChannels, GuildMethods.createGuildChannel,
      GuildMethods.updateChannelPositions, GuildMethods.listActiveThreads,
      GuildMethods.getGuildMember, GuildMethods.getGuildMembers, GuildMethods.addGuildMember,
      GuildMethods.updateGuildMember, GuildMethods.updateSelf, GuildMethods.addGuildMemberRole,
      GuildMethods.removeGuildMemberRole, GuildMethods.removeGuildMember,
      GuildMethods.getGuildBans, GuildMethods.getGuildBan, GuildMethods.createGuildBan,
      GuildMethods.removeGuildBan, GuildMethods.getGuildRoles, GuildMethods.createGuildRole,
      GuildMethods.updateGuildRolePositions, GuildMethods.updateGuildRole,
      GuildMethods.removeGuildRole, GuildMethods.getGuildPruneCount,
      GuildMethods.startGuildPrune, GuildMethods.getGuildVoiceRegions,
      GuildMethods.getGuildInvites, GuildMethods.getGuildIntegrations,
      GuildMethods.removeGuildIntegration, GuildMethods.getGuildWidgetSettings,
      GuildMethods.updateGuildWidgetSettings, GuildMethods.getGuildWidget,
      GuildMethods.getGuildVanityURL, GuildMethods.getGuildWelcomeScreen,
      GuildMethods.editGuildWelcomeScreen, GuildMethods.updateCurrentUserVoiceState,
      GuildMethods.updateUserVoiceState, GuildAssetsMethods.getEmojis,
      GuildAssetsMethods.getEmoji, GuildAssetsMethods.createEmoji,
      GuildAssetsMethods.updateEmoji, GuildAssetsMethods.deleteEmoji,
      GuildAssetsMethods.getSticker, GuildAssetsMethods.getGuildStickers,
      GuildAssetsMethods.getGuildSticker, GuildAssetsMethods.createGuildSticker,
      GuildAssetsMethods.updateGuildSticker, GuildAssetsMethods.deleteGuildSticker,
      InviteMethods.getInvite, InviteMethods.deleteInvite, BotMethods.getGateway,
      BotMethods.getGatewayBot, BotMethods.getOAuthApplication,
      GuildTemplateMethods.getGuildTemplate, GuildTemplateMethods.createGuildFromGuildTemplate,
      GuildTemplateMethods.getGuildTemplates, GuildTemplateMethods.createGuildTemplate,
      GuildTemplateMethods.syncGuildTemplate, GuildTemplateMethods.modifyGuildTemplate,
      GuildTemplateMethods.deleteGuildTemplate, AuditLogMethods.getAuditLog]⟩

/-- Claim C2 witness: `getGuildBan` dispatches exactly one request, and its
verb and dataKind are within the documented sets. -/
theorem wrapper_single_dispatch_witness :
    ((GuildMethods.getGuildBan (δ := Unit) "guild" "member").verb = Verb.get ∨
      (GuildMethods.getGuildBan (δ := Unit) "guild" "member").verb = Verb.post ∨
      (GuildMethods.getGuildBan (δ := Unit) "guild" "member").verb = Verb.put ∨
      (GuildMethods.getGuildBan (δ := Unit) "guild" "member").verb = Verb.patch ∨
      (GuildMethods.getGuildBan (δ := Unit) "guild" "member").verb = Verb.delete) ∧
    ((GuildMethods.getGuildBan (δ := Unit) "guild" "member").dataKind = DataKind.json ∨
      (GuildMethods.getGuildBan (δ := Unit) "guild" "member").dataKind = DataKind.multipart) :=
  (wrapper_single_dispatch defaultConstants (WrapperCall.getGuildBan "guild" "member")).1
    (GuildMethods.getGuildBan "guild" "member") rfl

/-- Claim C7: each endpoint wrapper is a pure, deterministic builder — equal
arguments hand the dispatcher equal tuples, and for the cited wrappers
(`getInvite`, `getGuild`) the whole tuple is an explicit function of the
arguments alone. -/
theorem wrapper_deterministic (C : Constants) :
    (∀ c c' : WrapperCall Unit, c = c' → dispatch C c = dispatch C c') ∧
    (∀ inviteId query, InviteMethods.getInvite (δ := Unit) inviteId query =
      ⟨Endpoints.INVITES inviteId ++
          (match query with
           | Option.some opts => joinWith "" (queryFragments opts)
           | Option.none => ""),
        Verb.get, DataKind.json, Option.none⟩) ∧
    (∀ guildId wc, GuildMethods.getGuild (δ := Unit) guildId wc =
      ⟨Endpoints.GUILD guildId ++
          (match wc with
           | Option.some b => "?with_counts=" ++ (if b then "true" else "false")
           | Option.none => ""),
        Verb.get, DataKind.json, Option.none⟩) :=
  ⟨fun _ _ h => h ▸ rfl, fun _ _ => rfl, fun _ _ => rfl⟩

/-- Claim C7 witness: determinism evaluated at two equal `getGuild` calls. -/
theorem wrapper_deterministic_witness :
    dispatch (δ := Unit) defaultConstants (WrapperCall.getGuild "guild" (Option.some true)) =
      dispatch defaultConstants (WrapperCall.getGuild "guild" (Option.some true)) :=
  (wrapper_deterministic defaultConstants).1 _ _ rfl

/-- Claim C8: `getGuildBans` interpolates its fragment array without joining
it, so with two or more query keys the fragments after the first are
preceded by a comma (concretely `?limit=1,&before=2`), while `getInvite` and
`getGuildPruneCount` join their fragments with the empty string. -/
theorem getGuildBans_query_malformed :
    (∀ guildId k1 v1 k2 v2 (rest : List (String × String)), ∃ s,
      (GuildMethods.getGuildBans (δ := Unit) guildId
          (Option.some ((k1, v1) :: (k2, v2) :: rest))).url =
        Endpoints.GUILD_BANS guildId ++ ("?" ++ k1 ++ "=" ++ v1 ++ "," ++ s)) ∧
    ((GuildMethods.getGuildBans (δ := Unit) "g"
        (Option.some [("limit", "1"), ("before", "2")])).url =
      Endpoints.GUILD_BANS "g" ++ "?limit=1,&before=2") ∧
    (∀ inviteId k1 v1 k2 v2,
      (InviteMethods.getInvite (δ := Unit) inviteId
          (Option.some [(k1, v1), (k2, v2)])).url =
        Endpoints.INVITES inviteId ++ (("?" ++ k1 ++ "=" ++ v1) ++ ("&" ++ k2 ++ "=" ++ v2))) ∧
    (∀ guildId k1 v1 k2 v2,
      (GuildMethods.getGuildPruneCount (δ := Unit) guildId
          (Option.some [(k1, v1), (k2, v2)])).url =
        Endpoints.GUILD_PRUNE guildId ++ (("?" ++ k1 ++ "=" ++ v1) ++ ("&" ++ k2 ++ "=" ++ v2))) := by
  refine ⟨fun guildId k1 v1 k2 v2 rest =>
    ⟨joinWith "," (queryFragmentsFrom 1 ((k2, v2) :: rest)), rfl⟩, ?_, ?_, ?_⟩
  · rfl
  · intro inviteId k1 v1 k2 v2
    show Endpoints.INVITES inviteId ++
        ((("?" ++ k1 ++ "=" ++ v1) ++ "") ++ ("&" ++ k2 ++ "=" ++ v2)) = _
    rw [String.append_empty]
  · intro guildId k1 v1 k2 v2
    show Endpoints.GUILD_PRUNE guildId ++
        ((("?" ++ k1 ++ "=" ++ v1) ++ "") ++ ("&" ++ k2 ++ "=" ++ v2)) = _
    rw [String.append_empty]

/-- Claim C9: each delete-style wrapper with an optional reason hands the
dispatcher the payload `{ reason }` iff the reason is a defined non-empty
string; an undefined or empty-string reason yields no payload at all. -/
theorem reason_payload_iff (a b c : String) (ro : Option String) (r : String) :
    (((GuildMethods.removeGuildMemberRole (δ := Unit) a b c ro).payload =
        Option.some (Payload.reason r) ↔ ro = Option.some r ∧ r ≠ "") ∧
      ((GuildMethods.removeGuildMemberRole (δ := Unit) a b c ro).payload = Option.none ↔
        ro = Option.none ∨ ro = Option.some "")) ∧
    (((GuildMethods.removeGuildMember (δ := Unit) a b ro).payload =
        Option.some (Payload.reason r) ↔ ro = Option.some r ∧ r ≠ "") ∧
      ((GuildMethods.removeGuildMember (δ := Unit) a b ro).payload = Option.none ↔
        ro = Option.none ∨ ro = Option.some "")) ∧
    (((GuildMethods.removeGuildBan (δ := Unit) a b ro).payload =
        Option.some (Payload.reason r) ↔ ro = Option.some r ∧ r ≠ "") ∧
      ((GuildMethods.removeGuildBan (δ := Unit) a b ro).payload = Option.none ↔
        ro = Option.none ∨ ro = Option.some "")) ∧
    (((GuildMethods.removeGuildRole (δ := Unit) a b ro).payload =
        Option.some (Payload.reason r) ↔ ro = Option.some r ∧ r ≠ "") ∧
      ((GuildMethods.removeGuildRole (δ := Unit) a b ro).payload = Option.none ↔
        ro = Option.none ∨ ro = Option.some "")) ∧
    (((GuildMethods.removeGuildIntegration (δ := Unit) a b ro).payload =
        Option.some (Payload.reason r) ↔ ro = Option.some r ∧ r ≠ "") ∧
      ((GuildMethods.removeGuildIntegration (δ := Unit) a b ro).payload = Option.none ↔
        ro = Option.none ∨ ro = Option.some "")) ∧
    (((GuildAssetsMethods.deleteEmoji (δ := Unit) a b ro).payload =
        Option.some (Payload.reason r) ↔ ro = Option.some r ∧ r ≠ "") ∧
      ((GuildAssetsMethods.deleteEmoji (δ := Unit) a b ro).payload = Option.none ↔
        ro = Option.none ∨ ro = Option.some "")) ∧
    (((GuildAssetsMethods.deleteGuildSticker (δ := Unit) a b ro).payload =
        Option.some (Payload.reason r) ↔ ro = Option.some r ∧ r ≠ "") ∧
      ((GuildAssetsMethods.deleteGuildSticker (δ := Unit) a b ro).payload = Option.none ↔
        ro = Option.none ∨ ro = Option.some "")) := by
  have hsome : reasonPayload Unit ro = Option.some (Payload.reason r) ↔
      ro = Option.some r ∧ r ≠ "" := by
    cases ro with
    | none => simp [reasonPayload]
    | some x =>
      by_cases hx : x = ""
      · subst hx
        simp [reasonPayload]
        rintro rfl
        simp
      · simp [reasonPayload, hx]
        rintro rfl
        exact hx
  have hnone : reasonPayload Unit ro = Option.none ↔
      ro = Option.none ∨ ro = Option.some "" := by
    cases ro with
    | none => simp [reasonPayload]
    | some x =>
      by_cases hx : x = "" <;> simp [reasonPayload, hx]
  exact ⟨⟨hsome, hnone⟩, ⟨hsome, hnone⟩, ⟨hsome, hnone⟩, ⟨hsome, hnone⟩, ⟨hsome, hnone⟩,
    ⟨hsome, hnone⟩, ⟨hsome, hnone⟩⟩

/-- Claim C10: `getOAuthApplication` always issues a json GET; an undefined
or empty appID targets the OAuth application route for `@me`, and any
non-empty appID targets the route for that id. -/
theorem getOAuthApplication_route (appID : Option String) :
    (BotMethods.getOAuthApplication (δ := Unit) appID).verb = Verb.get ∧
    (BotMethods.getOAuthApplication (δ := Unit) appID).dataKind = DataKind.json ∧
    (BotMethods.getOAuthApplication (δ := Unit) appID).payload = Option.none ∧
    ((appID = Option.none ∨ appID = Option.some "") →
      (BotMethods.getOAuthApplication (δ := Unit) appID).url =
        Endpoints.OAUTH2_APPLICATION "@me") ∧
    (∀ s, appID = Option.some s → s ≠ "" →
      (BotMethods.getOAuthApplication (δ := Unit) appID).url =
        Endpoints.OAUTH2_APPLICATION s) := by
  refine ⟨rfl, rfl, rfl, ?_, ?_⟩
  · rintro (rfl | rfl) <;> simp [BotMethods.getOAuthApplication]
  · rintro s rfl hs
    simp [BotMethods.getOAuthApplication, hs]

/-- Claim C10 witness: the route characterisation evaluated at a defined,
non-empty appID and at an undefined one. -/
theorem getOAuthApplication_route_witness :
    (BotMethods.getOAuthApplication (δ := Unit) (Option.some "1234")).url =
      Endpoints.OAUTH2_APPLICATION "1234" ∧
    (BotMethods.getOAuthApplication (δ := Unit) Option.none).url =
      Endpoints.OAUTH2_APPLICATION "@me" :=
  ⟨(getOAuthApplication_route (Option.some "1234")).2.2.2.2 "1234" rfl (by decide),
   (getOAuthApplication_route Option.none).2.2.2.1 (Or.inl rfl)⟩

end SnowTransfer
